import Mathlib

/-!
Verification of the `temppath` module (src/index.js).

The development shallowly embeds the JavaScript source into Lean:

* JavaScript runtime values that can flow into the library's positional
  arguments are modelled by `JSVal`; the values that can sit in a field of an
  options object are modelled by `Prim`.  Plain objects carry the three fields
  the library reads (`asFile`, `ext`, `maxLen`); arrays are abstracted to a
  single constructor because the library only ever asks `Array.isArray` and
  `typeof` about them and reads the three option fields (absent on arrays).
* `typeof`, truthiness, `ToNumber` coercion and property access are embedded
  by `jsTypeof` / `jsTruthy` / `primToNumber` / `getProp`; property access on
  `null` or `undefined` errors, as in JavaScript.
* The random source (`crypto.randomUUID`) is an explicit input `uuid`;
  the process environment is an explicit `Env`; the filesystem primitives are
  an oracle `FS` mapping each requested path to success or an `FsError`.
* Node's `path.join` / `path.dirname` / `path.resolve` are external
  collaborators; they are modelled for arguments without redundant
  separators, which is all the library produces.
* The asynchronous creation function is embedded as the list of callback
  invocations its promise chain performs (the user callback is assumed not to
  throw); the synchronous one as an `Except` computation.
-/

/-- A JavaScript runtime value, as far as the library's argument handling can
distinguish values.  `func` carries an identifier so distinct callbacks can be
told apart; `obj` carries the three option fields the library reads. -/
inductive Prim where
  | undef
  | null
  | bool (b : Bool)
  | num (n : Int)
  | str (s : String)
  | func
  | obj
  | arr
deriving DecidableEq

/-- The option fields read by the library: `asFile`, `ext`, `maxLen`.
A field that is not present on the object is `Prim.undef`. -/
structure Options where
  asFile : Prim
  ext : Prim
  maxLen : Prim
deriving DecidableEq

/-- A top-level JavaScript value passed as one of the positional arguments. -/
inductive JSVal where
  | undef
  | null
  | bool (b : Bool)
  | num (n : Int)
  | str (s : String)
  | func (id : Nat)
  | obj (o : Options)
  | arr
deriving DecidableEq

/-- The JavaScript `typeof` operator (note `typeof null = "object"`). -/
def jsTypeof : JSVal → String
  | JSVal.undef => "undefined"
  | JSVal.null => "object"
  | JSVal.bool _ => "boolean"
  | JSVal.num _ => "number"
  | JSVal.str _ => "string"
  | JSVal.func _ => "function"
  | JSVal.obj _ => "object"
  | JSVal.arr => "object"

/-- JavaScript truthiness of a top-level value (`NaN` is not modelled:
numbers are embedded as integers). -/
def jsTruthy : JSVal → Bool
  | JSVal.undef => false
  | JSVal.null => false
  | JSVal.bool b => b
  | JSVal.num n => n != 0
  | JSVal.str s => s != ""
  | JSVal.func _ => true
  | JSVal.obj _ => true
  | JSVal.arr => true

/-- `typeof` for an option-field value. -/
def primTypeof : Prim → String
  | Prim.undef => "undefined"
  | Prim.null => "object"
  | Prim.bool _ => "boolean"
  | Prim.num _ => "number"
  | Prim.str _ => "string"
  | Prim.func => "function"
  | Prim.obj => "object"
  | Prim.arr => "object"

/-- Truthiness for an option-field value. -/
def primTruthy : Prim → Bool
  | Prim.undef => false
  | Prim.null => false
  | Prim.bool b => b
  | Prim.num n => n != 0
  | Prim.str s => s != ""
  | Prim.func => true
  | Prim.obj => true
  | Prim.arr => true

/-- JavaScript `ToNumber` on an option-field value, `none` meaning `NaN`.
Strings are modelled for the empty string (which coerces to `0`) and integer
literals; plain objects coerce to `NaN`, the abstract array like the empty
array to `0`. -/
def primToNumber : Prim → Option Int
  | Prim.undef => none
  | Prim.null => some 0
  | Prim.bool b => some (if b then 1 else 0)
  | Prim.num n => some n
  | Prim.str s => if s = "" then some 0 else s.toInt?
  | Prim.func => none
  | Prim.obj => none
  | Prim.arr => some 0

/-- The JavaScript comparison `x <= 0` (src/index.js:100): both sides are
coerced to numbers and any comparison against `NaN` is false. -/
def jsLeZero (p : Prim) : Bool :=
  match primToNumber p with
  | none => false
  | some n => decide (n ≤ 0)

/-- `String.prototype.substr(0, len)` (src/index.js:106): an `undefined`
length keeps the whole string, a numeric length keeps that many leading
characters (negative clamps to zero), a `NaN` length keeps none. -/
def jsSubstr (s : String) (len : Prim) : String :=
  match len with
  | Prim.undef => s
  | l =>
    match primToNumber l with
    | some n => String.mk (s.data.take n.toNat)
    | none => String.mk []

/-- The global hyphen removal `randomUUID().replace(hyphen, '')`
(src/index.js:106): every hyphen of the generated identifier is removed. -/
def stripHyphens (s : String) : String :=
  String.mk (s.data.filter (fun c => c != '-'))

/-- The token segment appended to the root directory: the hyphen-stripped
random identifier, truncated by `substr(0, maxLen)`. -/
def tokenOf (uuid : String) (maxLen : Prim) : String :=
  jsSubstr (stripHyphens uuid) maxLen

/-- The process environment and platform facilities read by `__getTempDir`
(src/index.js:63-68).  `osTmpdir` is the value of `os.tmpdir()`, `cwd` the
current working directory. -/
structure Env where
  tmpdirVar : Option String
  tmpVar : Option String
  tempVar : Option String
  osTmpdir : String
  cwd : String

/-- JavaScript `a || rest` for an environment variable: an unset variable and
the empty string are both falsy. -/
def envOrElse (v : Option String) (rest : String) : String :=
  match v with
  | some s => if s = "" then rest else s
  | none => rest

/-- Model of Node `path.resolve(cwd, sub)` for an absolute `cwd` without a
trailing separator and a relative `sub`. -/
def pathResolve (cwd sub : String) : String :=
  cwd ++ "/" ++ sub

/-- `__getTempDir` (src/index.js:63-68): `process.env.TMPDIR`, else
`process.env.TMP || process.env.TEMP`, else `os.tmpdir()`, else
`path.resolve(process.cwd(), 'tmp')`. -/
def __getTempDir (env : Env) : String :=
  envOrElse env.tmpdirVar (envOrElse env.tmpVar (envOrElse env.tempVar
    (if env.osTmpdir = "" then pathResolve env.cwd "tmp" else env.osTmpdir)))

/-- Model of Node `path.join(a, b)` (posix) for segments without redundant
separators: joins with `/`, returns the non-empty argument when the other is
empty, and `.` when both are. -/
def pathJoin (a b : String) : String :=
  if a = "" then (if b = "" then "." else b)
  else if b = "" then a
  else a ++ "/" ++ b

/-- Model of Node `path.dirname(p)` (posix) for paths without a trailing
separator: everything before the last `/`, `.` if there is none, `/` for a
path directly under the root. -/
def dirname (p : String) : String :=
  match p.data.reverse.dropWhile (fun c => c != '/') with
  | [] => "."
  | _ :: rest => if rest = [] then "/" else String.mk rest.reverse

/-- An underlying filesystem error, treated as opaque data. -/
structure FsError where
  msg : String
deriving DecidableEq

/-- The errors the library can raise: `TypeError` (the spec's
`InvalidArgument`), `RangeError` (the spec's `OutOfRange`), and the wrapping
`Error` with a `cause` thrown by the synchronous creator (the spec's
`CreationFailed`). -/
inductive JSError where
  | typeError (msg : String)
  | rangeError (msg : String)
  | wrapped (msg : String) (cause : FsError)
deriving DecidableEq

deriving instance DecidableEq for Except

/-- `isNullOrUndefined` (src/index.js:43-45). -/
def isNullOrUndefined : JSVal → Bool
  | JSVal.null => true
  | JSVal.undef => true
  | _ => false

/-- `Array.isArray`. -/
def isArray : JSVal → Bool
  | JSVal.arr => true
  | _ => false

/-- Property access `v.f` for an option field: throws a `TypeError` on `null`
and `undefined`, yields the field on a plain object, and `undefined` on every
other value (primitives and arrays have none of the three fields). -/
def getProp (v : JSVal) (f : Options → Prim) : Except JSError Prim :=
  match v with
  | JSVal.null => Except.error (JSError.typeError "Cannot read properties of null")
  | JSVal.undef => Except.error (JSError.typeError "Cannot read properties of undefined")
  | JSVal.obj o => Except.ok (f o)
  | _ => Except.ok Prim.undef

/-- The root-directory operand of `path.join` in `getTempPath`
(src/index.js:105): the environment chain when `tmpdir` is nullish or the
empty string, the string itself otherwise; a non-string value reaching
`path.join` makes Node throw a `TypeError` (for a falsy non-string, the
`tmpdir.length === 0` test is false, so the value itself is passed on). -/
def joinRootArg (tmpdir : JSVal) (env : Env) : Except JSError String :=
  if isNullOrUndefined tmpdir then Except.ok (__getTempDir env)
  else
    match tmpdir with
    | JSVal.str s => Except.ok (if s = "" then __getTempDir env else s)
    | v => Except.error (JSError.typeError
        ("The \"path\" argument must be of type string. Received " ++ jsTypeof v))

/-- `getTempPath` (src/index.js:96-108): validates `tmpdir` and `maxLen`,
then joins the root directory with the truncated hyphen-stripped random
token. -/
def getTempPath (tmpdir : JSVal) (maxLen : Prim) (env : Env) (uuid : String) :
    Except JSError String :=
  if jsTruthy tmpdir && jsTypeof tmpdir != "string" then
    Except.error (JSError.typeError
      ("Expected type is string. Received " ++ jsTypeof tmpdir))
  else if jsLeZero maxLen then
    Except.error (JSError.rangeError "Maximum characters must be greater than zero")
  else
    match joinRootArg tmpdir env with
    | Except.error e => Except.error e
    | Except.ok root => Except.ok (pathJoin root (tokenOf uuid maxLen))

/-- The empty options object `{}`. -/
def emptyOptions : Options :=
  Options.mk Prim.undef Prim.undef Prim.undef

/-- The value `{}` substituted during argument disambiguation. -/
def emptyObj : JSVal :=
  JSVal.obj emptyOptions

/-- Argument disambiguation of `createTempPath` (src/index.js:178-194),
returning the effective `(tmpdir, options, callback)` triple. -/
def resolveArgsAsync (tmpdir options callback : JSVal) : JSVal × JSVal × JSVal :=
  if (jsTypeof tmpdir == "object" && !isArray tmpdir)
      && jsTypeof options == "function" && isNullOrUndefined callback then
    (JSVal.null, tmpdir, options)
  else if !isNullOrUndefined tmpdir && jsTypeof options == "function"
      && isNullOrUndefined callback then
    (tmpdir, emptyObj, options)
  else if jsTypeof tmpdir == "function" && isNullOrUndefined options
      && isNullOrUndefined callback then
    (JSVal.null, emptyObj, tmpdir)
  else if isNullOrUndefined options then
    (tmpdir, emptyObj, callback)
  else
    (tmpdir, options, callback)

/-- Argument disambiguation of `createTempPathSync` (src/index.js:304-312). -/
def resolveArgsSync (tmpdir options : JSVal) : JSVal × JSVal :=
  if jsTypeof tmpdir == "object" && !isArray tmpdir && isNullOrUndefined options then
    (JSVal.null, tmpdir)
  else if isNullOrUndefined options then
    (tmpdir, emptyObj)
  else
    (tmpdir, options)

/-- The test `s.startsWith('.')` of src/index.js:215: for the one-character
pattern it holds exactly when the first character is a dot. -/
def startsWithDot (s : String) : Bool :=
  match s.data with
  | c :: _ => c == '.'
  | [] => false

/-- Extension normalization in `createTempPath` (src/index.js:214-223):
a truthy extension keeps or gains its leading dot; otherwise an empty-string
extension stays empty and anything else defaults to `.tmp`.  A truthy
non-string extension cannot reach this computation (validation rejects it);
the `.tmp` result in that branch stands in for the unreachable case. -/
def normalizeExt (ext : Prim) : String :=
  if primTruthy ext then
    match ext with
    | Prim.str s => if startsWithDot s then s else "." ++ s
    | _ => ".tmp"
  else
    match ext with
    | Prim.str s => if s.length = 0 then s else ".tmp"
    | _ => ".tmp"

/-- Extension normalization in `createTempPathSync` (src/index.js:328-337),
textually duplicated from the asynchronous variant in the source. -/
def normalizeExtSync (ext : Prim) : String :=
  if primTruthy ext then
    match ext with
    | Prim.str s => if startsWithDot s then s else "." ++ s
    | _ => ".tmp"
  else
    match ext with
    | Prim.str s => if s.length = 0 then s else ".tmp"
    | _ => ".tmp"

/-- The filesystem oracle: the outcome of each creation primitive on each
requested path (`none` is success). -/
structure FS where
  mkdirRecursive : String → Option FsError
  mkdir : String → Option FsError
  writeFile : String → Option FsError

/-- What a run of the asynchronous creator hands to the callback:
`callback(null, p)` or `callback(err)`. -/
inductive CbArg where
  | success (p : String)
  | failure (e : FsError)
deriving DecidableEq

/-- One invocation of a callback value. -/
structure CbInvocation where
  cb : JSVal
  arg : CbArg
deriving DecidableEq

/-- The data `createTempPath` has computed once validation and path
resolution succeeded: the effective callback, the resolved path, the
normalized extension, and the truthiness of `options.asFile`. -/
structure ResolvedCall where
  cb : JSVal
  path : String
  extension : String
  asFile : Bool
deriving DecidableEq

/-- The validation and path-resolution phase of `createTempPath`
(src/index.js:177-223): disambiguation, the four shape checks, `getTempPath`,
extension normalization.  The read of `options.asFile` (src/index.js:228) is
hoisted here; it is total on every options value that survives the earlier
property reads. -/
def asyncPrep (tmpdir options callback : JSVal) (env : Env) (uuid : String) :
    Except JSError ResolvedCall :=
  let r := resolveArgsAsync tmpdir options callback
  let t := r.1
  let o := r.2.1
  let c := r.2.2
  if !jsTruthy c || jsTypeof c != "function" then
    Except.error (JSError.typeError
      ("The \"callback\" argument must be a function. Received " ++ jsTypeof c))
  else if jsTruthy o && jsTypeof o != "object" then
    Except.error (JSError.typeError
      ("The \"options\" argument must be an object. Received " ++ jsTypeof o))
  else
    match getProp o Options.ext with
    | Except.error e => Except.error e
    | Except.ok ext =>
      if primTruthy ext && primTypeof ext != "string" then
        Except.error (JSError.typeError
          ("Expected a string extension, got " ++ primTypeof ext))
      else
        match getProp o Options.maxLen with
        | Except.error e => Except.error e
        | Except.ok ml =>
          if primTruthy ml && primTypeof ml != "number" then
            Except.error (JSError.typeError
              ("Expected a number for maxLen, got " ++ primTypeof ml))
          else
            match getTempPath t ml env uuid with
            | Except.error e => Except.error e
            | Except.ok p =>
              match getProp o Options.asFile with
              | Except.error e => Except.error e
              | Except.ok af =>
                Except.ok (ResolvedCall.mk c p (normalizeExt ext) (primTruthy af))

/-- The promise chain of `createTempPath` (src/index.js:226-241), embedded as
the list of callback invocations it performs, in order, assuming the user
callback itself does not throw: create the parent directory recursively, then
either write an empty file at `path ++ extension` or create the directory at
`path`; every filesystem error is handed to the callback undecorated. -/
def asyncFsPhase (r : ResolvedCall) (fsys : FS) : List CbInvocation :=
  match fsys.mkdirRecursive (dirname r.path) with
  | some err => [CbInvocation.mk r.cb (CbArg.failure err)]
  | none =>
    if r.asFile then
      match fsys.writeFile (r.path ++ r.extension) with
      | some err => [CbInvocation.mk r.cb (CbArg.failure err)]
      | none => [CbInvocation.mk r.cb (CbArg.success (r.path ++ r.extension))]
    else
      match fsys.mkdir r.path with
      | some err => [CbInvocation.mk r.cb (CbArg.failure err)]
      | none => [CbInvocation.mk r.cb (CbArg.success r.path)]

/-- `createTempPath` (src/index.js:177-242).  `Except.error` is a synchronous
throw (the function then performs no filesystem operation and never invokes
the callback); `Except.ok invs` means the function returned `undefined` and
its promise chain performs exactly the callback invocations `invs`. -/
def createTempPath (tmpdir options callback : JSVal) (env : Env) (uuid : String)
    (fsys : FS) : Except JSError (List CbInvocation) :=
  match asyncPrep tmpdir options callback env uuid with
  | Except.error e => Except.error e
  | Except.ok r => Except.ok (asyncFsPhase r fsys)

/-- The data `createTempPathSync` has computed before its `try` block. -/
structure SyncCall where
  path : String
  extension : String
  asFile : Bool
deriving DecidableEq

/-- The validation and path-resolution phase of `createTempPathSync`
(src/index.js:301-337).  Unlike the asynchronous variant, the options-object
check has no truthiness guard (src/index.js:314). -/
def syncPrep (tmpdir options : JSVal) (env : Env) (uuid : String) :
    Except JSError SyncCall :=
  let r := resolveArgsSync tmpdir options
  let t := r.1
  let o := r.2
  if jsTypeof o != "object" then
    Except.error (JSError.typeError
      ("The \"options\" argument must be an object. Received " ++ jsTypeof o))
  else
    match getProp o Options.ext with
    | Except.error e => Except.error e
    | Except.ok ext =>
      if primTruthy ext && primTypeof ext != "string" then
        Except.error (JSError.typeError
          ("Expected a string extension, got " ++ primTypeof ext))
      else
        match getProp o Options.maxLen with
        | Except.error e => Except.error e
        | Except.ok ml =>
          if primTruthy ml && primTypeof ml != "number" then
            Except.error (JSError.typeError
              ("Expected a number for maxLen, got " ++ primTypeof ml))
          else
            match getTempPath t ml env uuid with
            | Except.error e => Except.error e
            | Except.ok p =>
              match getProp o Options.asFile with
              | Except.error e => Except.error e
              | Except.ok af =>
                Except.ok (SyncCall.mk p (normalizeExtSync ext) (primTruthy af))

/-- The `try`/`catch` block of `createTempPathSync` (src/index.js:339-359):
parent directory, then file or directory creation; any filesystem error is
re-thrown wrapped in a new `Error` whose message names `file` or `directory`
according to `options.asFile` and whose `cause` is the original error. -/
def syncFsPhase (r : SyncCall) (fsys : FS) : Except JSError String :=
  let msg := "temppath: Failed to create temporary "
    ++ (if r.asFile then "file." else "directory.")
  match fsys.mkdirRecursive (dirname r.path) with
  | some e => Except.error (JSError.wrapped msg e)
  | none =>
    if r.asFile then
      match fsys.writeFile (r.path ++ r.extension) with
      | some e => Except.error (JSError.wrapped msg e)
      | none => Except.ok (r.path ++ r.extension)
    else
      match fsys.mkdir r.path with
      | some e => Except.error (JSError.wrapped msg e)
      | none => Except.ok r.path

/-- `createTempPathSync` (src/index.js:301-360). -/
def createTempPathSync (tmpdir options : JSVal) (env : Env) (uuid : String)
    (fsys : FS) : Except JSError String :=
  match syncPrep tmpdir options env uuid with
  | Except.error e => Except.error e
  | Except.ok r => syncFsPhase r fsys

/-- The spec's notion of a structured record, as the disambiguation code
tests it (src/index.js:178): object `typeof` and not an array.  Note that
`null` satisfies it and arrays do not. -/
def isStructuredRecord (v : JSVal) : Bool :=
  jsTypeof v == "object" && !isArray v

/-! ## Shared concrete instances used by witnesses -/

/-- A concrete environment: no temp-directory variables set, a platform
default of `/sys`, working directory `/cwd`. -/
def sampleEnv : Env :=
  Env.mk none none none "/sys" "/cwd"

/-- A filesystem oracle on which every creation primitive succeeds. -/
def fsAllOk : FS :=
  FS.mk (fun _ => none) (fun _ => none) (fun _ => none)

/-- A concrete 32-character hyphen-free random identifier. -/
def sampleUuid : String :=
  "0123456789abcdef0123456789abcdef"

/-! ## Helper lemmas -/

/-- If the root operand of `path.join` resolves, the type check on `tmpdir`
at the head of `getTempPath` passed. -/
theorem joinRootArg_ok_check (t : JSVal) (env : Env) (r : String)
    (h : joinRootArg t env = Except.ok r) :
    (jsTruthy t && jsTypeof t != "string") = false := by
  cases t <;> simp_all [joinRootArg, jsTruthy, jsTypeof, isNullOrUndefined]

/-- A successful `getTempPath` run resolved its root operand and returned it
joined with the token. -/
theorem getTempPath_ok_elim (t : JSVal) (ml : Prim) (env : Env) (u p : String)
    (h : getTempPath t ml env u = Except.ok p) :
    ∃ root, joinRootArg t env = Except.ok root ∧ p = pathJoin root (tokenOf u ml) := by
  unfold getTempPath at h
  split at h
  · exact absurd h (by simp)
  · split at h
    · exact absurd h (by simp)
    · split at h
      · exact absurd h (by simp)
      · rename_i root hr
        exact ⟨root, hr, (Except.ok.inj h).symm⟩

/-- For a fixed root, `pathJoin` with distinct non-empty second segments
yields distinct paths. -/
theorem pathJoin_right_injective (root t1 t2 : String)
    (h1 : t1 ≠ "") (h2 : t2 ≠ "") (hne : t1 ≠ t2) :
    pathJoin root t1 ≠ pathJoin root t2 := by
  unfold pathJoin
  by_cases hr : root = ""
  · simpa [hr, h1, h2] using hne
  · simp only [hr, if_neg, h1, h2, if_false]
    intro h
    have hd := congrArg String.data h
    simp [String.data_append] at hd
    exact hne (String.ext hd)

/-! ## Claim theorems -/

/-- Claim C5: in both materializer variants the extension option is
normalized identically: a non-empty string without a leading dot gains one,
a string already starting with a dot is kept unchanged, the explicit empty
string yields no suffix, and an absent extension defaults to `.tmp`. -/
theorem extension_normalization_spec (s : String) :
    normalizeExt (Prim.str s) = normalizeExtSync (Prim.str s) ∧
    (startsWithDot s = true → normalizeExt (Prim.str s) = s) ∧
    (s ≠ "" → startsWithDot s = false → normalizeExt (Prim.str s) = "." ++ s) ∧
    normalizeExt (Prim.str "") = "" ∧
    normalizeExt Prim.undef = ".tmp" ∧
    normalizeExtSync Prim.undef = ".tmp" := by
  refine ⟨rfl, ?_, ?_, rfl, rfl, rfl⟩
  · intro h
    have hne : s ≠ "" := by
      intro he
      rw [he] at h
      exact absurd h (by decide)
    simp [normalizeExt, primTruthy, hne, h]
  · intro hne h
    simp [normalizeExt, primTruthy, hne, h]

/-- Witness for C5 at the concrete extensions `foo` and `.foo`. -/
theorem extension_normalization_spec_witness :
    normalizeExt (Prim.str "foo") = "." ++ "foo" ∧
    normalizeExt (Prim.str ".foo") = ".foo" :=
  ⟨(extension_normalization_spec "foo").2.2.1 (by decide) (by decide),
   (extension_normalization_spec ".foo").2.1 (by decide)⟩

/-- Claim C10: calling the asynchronous creator as `createTempPath(null, cb)`
makes disambiguation rule 1 fire (`typeof null` is `"object"`), so `options`
becomes `null` rather than `{}`; the subsequent `options.ext` read then
dereferences `null` and the call throws a `TypeError` synchronously, for
every filesystem oracle, without invoking the callback. -/
theorem createTempPath_null_root_throws (i : Nat) (env : Env) (uuid : String)
    (fsys : FS) :
    resolveArgsAsync JSVal.null (JSVal.func i) JSVal.undef
      = (JSVal.null, JSVal.null, JSVal.func i) ∧
    createTempPath JSVal.null (JSVal.func i) JSVal.undef env uuid fsys
      = Except.error (JSError.typeError "Cannot read properties of null") := by
  exact ⟨rfl, rfl⟩

/-- Claim C3: the asynchronous entry point disambiguates `(tmpdir, options,
callback)` with the stated precedence: (1) a structured-record first argument
with a callable second and no third becomes `(unset, options, callback)`;
(2) otherwise a non-empty first argument with a callable second and no third
becomes `(root, {}, callback)`; (3) a callable first argument alone becomes
the callback with root unset and options `{}`; (4) otherwise an unsupplied
`options` defaults to `{}`. -/
theorem resolveArgsAsync_precedence (t o c : JSVal) :
    (isStructuredRecord t = true → jsTypeof o = "function" →
      isNullOrUndefined c = true →
      resolveArgsAsync t o c = (JSVal.null, t, o)) ∧
    (isStructuredRecord t = false → jsTruthy t = true → jsTypeof o = "function" →
      isNullOrUndefined c = true →
      resolveArgsAsync t o c = (t, emptyObj, o)) ∧
    (jsTypeof t = "function" → isNullOrUndefined o = true →
      isNullOrUndefined c = true →
      resolveArgsAsync t o c = (JSVal.null, emptyObj, t)) ∧
    (¬(jsTypeof t = "function" ∧ isNullOrUndefined c = true) →
      isNullOrUndefined o = true →
      resolveArgsAsync t o c = (t, emptyObj, c)) := by
  refine ⟨?_, ?_, ?_, ?_⟩
  · intro h1 h2 h3
    simp only [isStructuredRecord] at h1
    simp [resolveArgsAsync, h1, h2, h3]
  · intro h0 h1 h2 h3
    simp only [isStructuredRecord] at h0
    have h4 : isNullOrUndefined t = false := by
      cases t <;> simp_all [jsTruthy, isNullOrUndefined]
    simp [resolveArgsAsync, h0, h2, h3, h4]
  · intro h1 h2 h3
    have ho : (jsTypeof o == "function") = false := by
      cases o <;> simp_all [isNullOrUndefined, jsTypeof]
    simp [resolveArgsAsync, h1, h2, h3, ho]
  · intro h0 h2
    have ho : (jsTypeof o == "function") = false := by
      cases o <;> simp_all [isNullOrUndefined, jsTypeof]
    rcases not_and_or.mp h0 with h | h
    · have ht : (jsTypeof t == "function") = false := by simp [h]
      simp [resolveArgsAsync, ho, h2, ht]
    · have hc : isNullOrUndefined c = false := by
        cases hcv : isNullOrUndefined c
        · rfl
        · exact absurd hcv h
      simp [resolveArgsAsync, ho, h2, hc]

/-- Witness for C3: an options record with a callback and no third argument
is taken as `(options, callback)` with the root unset. -/
theorem resolveArgsAsync_precedence_witness :
    resolveArgsAsync (JSVal.obj emptyOptions) (JSVal.func 1) JSVal.undef
      = (JSVal.null, JSVal.obj emptyOptions, JSVal.func 1) :=
  (resolveArgsAsync_precedence (JSVal.obj emptyOptions) (JSVal.func 1)
    JSVal.undef).1 rfl rfl rfl

/-- Claim C6: for every accepted `maxLen > 0`, the random-token segment that
`getTempPath` appends to the root directory has length at most `maxLen`, and
it is non-empty whenever `maxLen ≥ 1` (the 32-character hyphen-stripped
identifier is truncated to at most `maxLen` characters). -/
theorem getTempPath_token_length_bound (tmpdir : JSVal) (env : Env)
    (uuid : String) (n : Int) (root : String)
    (hroot : joinRootArg tmpdir env = Except.ok root)
    (hn : 0 < n)
    (hu : (stripHyphens uuid).length = 32) :
    getTempPath tmpdir (Prim.num n) env uuid
      = Except.ok (pathJoin root (tokenOf uuid (Prim.num n))) ∧
    (tokenOf uuid (Prim.num n)).length ≤ n.toNat ∧
    0 < (tokenOf uuid (Prim.num n)).length := by
  have hc := joinRootArg_ok_check tmpdir env root hroot
  have hle : jsLeZero (Prim.num n) = false := by
    simp only [jsLeZero, primToNumber, decide_eq_false_iff_not]
    omega
  have hdata : (stripHyphens uuid).data.length = 32 := hu
  have hlen : (tokenOf uuid (Prim.num n)).length = min n.toNat 32 := by
    simp [tokenOf, jsSubstr, primToNumber, String.length, List.length_take, hdata]
  refine ⟨?_, ?_, ?_⟩
  · simp [getTempPath, hc, hle, hroot]
  · rw [hlen]
    exact Nat.min_le_left _ _
  · rw [hlen]
    have hpos : 0 < n.toNat := by omega
    exact Nat.lt_min.mpr ⟨hpos, by norm_num⟩

/-- Witness for C6 at root `/t`, `maxLen = 5` and a concrete identifier. -/
theorem getTempPath_token_length_bound_witness :
    getTempPath (JSVal.str "/t") (Prim.num 5) sampleEnv sampleUuid
      = Except.ok (pathJoin "/t" (tokenOf sampleUuid (Prim.num 5))) ∧
    (tokenOf sampleUuid (Prim.num 5)).length ≤ (5 : Int).toNat ∧
    0 < (tokenOf sampleUuid (Prim.num 5)).length :=
  getTempPath_token_length_bound (JSVal.str "/t") sampleEnv sampleUuid 5 "/t"
    rfl (by decide) (by decide)

/-- Claim C7: `getTempPath` fails with a `RangeError` for every provided
`maxLen ≤ 0`, and an omitted `maxLen` does not truncate: the token keeps the
full hyphen-stripped generator output. -/
theorem getTempPath_maxLen_range (tmpdir : JSVal) (env : Env) (uuid : String) :
    (∀ n : Int, n ≤ 0 → (jsTruthy tmpdir && jsTypeof tmpdir != "string") = false →
      getTempPath tmpdir (Prim.num n) env uuid
        = Except.error
            (JSError.rangeError "Maximum characters must be greater than zero")) ∧
    (∀ root : String, joinRootArg tmpdir env = Except.ok root →
      getTempPath tmpdir Prim.undef env uuid
        = Except.ok (pathJoin root (stripHyphens uuid))) := by
  constructor
  · intro n hn hc
    have hle : jsLeZero (Prim.num n) = true := by
      simp only [jsLeZero, primToNumber, decide_eq_true_eq]
      omega
    simp [getTempPath, hc, hle]
  · intro root hroot
    have hc := joinRootArg_ok_check tmpdir env root hroot
    simp [getTempPath, hc, jsLeZero, primToNumber, hroot, tokenOf, jsSubstr]

/-- Witness for C7 at `maxLen = 0`, `maxLen = -5`, and `maxLen` omitted. -/
theorem getTempPath_maxLen_range_witness :
    getTempPath (JSVal.str "/t") (Prim.num 0) sampleEnv "ab-cd"
      = Except.error
          (JSError.rangeError "Maximum characters must be greater than zero") ∧
    getTempPath (JSVal.str "/t") (Prim.num (-5)) sampleEnv "ab-cd"
      = Except.error
          (JSError.rangeError "Maximum characters must be greater than zero") ∧
    getTempPath (JSVal.str "/t") Prim.undef sampleEnv "ab-cd"
      = Except.ok (pathJoin "/t" (stripHyphens "ab-cd")) :=
  ⟨(getTempPath_maxLen_range (JSVal.str "/t") sampleEnv "ab-cd").1 0
      (by decide) (by decide),
   (getTempPath_maxLen_range (JSVal.str "/t") sampleEnv "ab-cd").1 (-5)
      (by decide) (by decide),
   (getTempPath_maxLen_range (JSVal.str "/t") sampleEnv "ab-cd").2 "/t" rfl⟩

/-- Claim C8: `getTempPath` fails with a `TypeError` for every non-empty
(truthy) non-string root argument; an omitted, `null`, or empty-string root
raises no such error and the root-directory-selection chain is used. -/
theorem getTempPath_root_validation (env : Env) (uuid : String) (maxLen : Prim) :
    (∀ t : JSVal, jsTruthy t = true → jsTypeof t ≠ "string" →
      getTempPath t maxLen env uuid
        = Except.error (JSError.typeError
            ("Expected type is string. Received " ++ jsTypeof t))) ∧
    (∀ t : JSVal, (t = JSVal.undef ∨ t = JSVal.null ∨ t = JSVal.str "") →
      jsLeZero maxLen = false →
      getTempPath t maxLen env uuid
        = Except.ok (pathJoin (__getTempDir env) (tokenOf uuid maxLen))) := by
  constructor
  · intro t h1 h2
    have h2' : (jsTypeof t != "string") = true := by simp [h2]
    simp [getTempPath, h1, h2']
  · intro t ht hml
    rcases ht with rfl | rfl | rfl <;>
      simp [getTempPath, jsTruthy, hml, joinRootArg, isNullOrUndefined]

/-- Witness for C8: a numeric root is rejected with a `TypeError`; an
omitted root falls back to the selection chain. -/
theorem getTempPath_root_validation_witness :
    getTempPath (JSVal.num 7) Prim.undef sampleEnv "ab-cd"
      = Except.error (JSError.typeError
          ("Expected type is string. Received " ++ jsTypeof (JSVal.num 7))) ∧
    getTempPath JSVal.undef Prim.undef sampleEnv "ab-cd"
      = Except.ok (pathJoin (__getTempDir sampleEnv) (tokenOf "ab-cd" Prim.undef)) :=
  ⟨(getTempPath_root_validation sampleEnv "ab-cd" Prim.undef).1 (JSVal.num 7)
      (by decide) (by decide),
   (getTempPath_root_validation sampleEnv "ab-cd" Prim.undef).2 JSVal.undef
      (Or.inl rfl) (by decide)⟩

/-- Claim C9: with the random source made an explicit input, two successful
runs of `getTempPath` with identical root and length arguments whose
(truncated) tokens differ yield distinct result paths; the resolver consults
no filesystem. -/
theorem getTempPath_distinct_tokens (tmpdir : JSVal) (env : Env) (maxLen : Prim)
    (u1 u2 p1 p2 : String)
    (h1 : getTempPath tmpdir maxLen env u1 = Except.ok p1)
    (h2 : getTempPath tmpdir maxLen env u2 = Except.ok p2)
    (hne : tokenOf u1 maxLen ≠ tokenOf u2 maxLen)
    (he1 : tokenOf u1 maxLen ≠ "")
    (he2 : tokenOf u2 maxLen ≠ "") :
    p1 ≠ p2 := by
  obtain ⟨r1, hr1, hp1⟩ := getTempPath_ok_elim tmpdir maxLen env u1 p1 h1
  obtain ⟨r2, hr2, hp2⟩ := getTempPath_ok_elim tmpdir maxLen env u2 p2 h2
  rw [hr1] at hr2
  cases Except.ok.inj hr2
  rw [hp1, hp2]
  exact pathJoin_right_injective r1 _ _ he1 he2 hne

/-- Witness for C9 at two concrete identifiers under the same root. -/
theorem getTempPath_distinct_tokens_witness : ("/t/aa" : String) ≠ "/t/bb" :=
  getTempPath_distinct_tokens (JSVal.str "/t") sampleEnv Prim.undef
    "aa" "bb" "/t/aa" "/t/bb" rfl rfl (by decide) (by decide) (by decide)

/-- Claim C1: once its arguments pass validation (hypothesis: the preparation
phase succeeds), `createTempPath` never throws, whatever the filesystem does;
its promise chain invokes the callback exactly once: with the resolved path
after the directory is created when `asFile` is false, with the resolved path
plus normalized extension after the empty file is created when `asFile` is
true, and with the underlying filesystem error, undecorated, when any
filesystem step fails. -/
theorem createTempPath_invokes_callback_once
    (tmpdir options callback : JSVal) (env : Env) (uuid : String)
    (r : ResolvedCall)
    (h : asyncPrep tmpdir options callback env uuid = Except.ok r)
    (fsys : FS) :
    createTempPath tmpdir options callback env uuid fsys
      = Except.ok (asyncFsPhase r fsys) ∧
    (asyncFsPhase r fsys).length = 1 ∧
    (∀ e, fsys.mkdirRecursive (dirname r.path) = some e →
      asyncFsPhase r fsys = [CbInvocation.mk r.cb (CbArg.failure e)]) ∧
    (fsys.mkdirRecursive (dirname r.path) = none →
      (r.asFile = true → ∀ e, fsys.writeFile (r.path ++ r.extension) = some e →
        asyncFsPhase r fsys = [CbInvocation.mk r.cb (CbArg.failure e)]) ∧
      (r.asFile = true → fsys.writeFile (r.path ++ r.extension) = none →
        asyncFsPhase r fsys
          = [CbInvocation.mk r.cb (CbArg.success (r.path ++ r.extension))]) ∧
      (r.asFile = false → ∀ e, fsys.mkdir r.path = some e →
        asyncFsPhase r fsys = [CbInvocation.mk r.cb (CbArg.failure e)]) ∧
      (r.asFile = false → fsys.mkdir r.path = none →
        asyncFsPhase r fsys = [CbInvocation.mk r.cb (CbArg.success r.path)])) := by
  refine ⟨by simp [createTempPath, h], ?_, ?_, ?_⟩
  · unfold asyncFsPhase
    rcases hm : fsys.mkdirRecursive (dirname r.path) with _ | e
    · by_cases haf : r.asFile
      · rcases hw : fsys.writeFile (r.path ++ r.extension) with _ | e <;>
          simp [haf, hw]
      · rcases hk : fsys.mkdir r.path with _ | e <;> simp [haf, hk]
    · simp
  · intro e hm
    simp [asyncFsPhase, hm]
  · intro hm
    refine ⟨?_, ?_, ?_, ?_⟩
    · intro haf e hw
      simp [asyncFsPhase, hm, haf, hw]
    · intro haf hw
      simp [asyncFsPhase, hm, haf, hw]
    · intro haf e hk
      simp [asyncFsPhase, hm, haf, hk]
    · intro haf hk
      simp [asyncFsPhase, hm, haf, hk]

/-- Witness for C1: a plain call with a root string, empty options and a
callback, on an all-succeeding filesystem. -/
theorem createTempPath_invokes_callback_once_witness :
    createTempPath (JSVal.str "/tmp") emptyObj (JSVal.func 7) sampleEnv
      "aaaa-bbbb" fsAllOk
      = Except.ok (asyncFsPhase
          (ResolvedCall.mk (JSVal.func 7) "/tmp/aaaabbbb" ".tmp" false) fsAllOk) :=
  (createTempPath_invokes_callback_once (JSVal.str "/tmp") emptyObj
    (JSVal.func 7) sampleEnv "aaaa-bbbb"
    (ResolvedCall.mk (JSVal.func 7) "/tmp/aaaabbbb" ".tmp" false) rfl fsAllOk).1

/-- Claim C2: once its arguments pass validation (hypothesis: the preparation
phase succeeds), any filesystem failure in `createTempPathSync` — parent
creation, directory creation or file creation — is re-raised as a single
wrapping error whose message says `file` when `options.asFile` is truthy and
`directory` otherwise and whose cause is the original filesystem error;
on success the resolved path (directory case) or the resolved path plus
normalized extension (file case) is returned. -/
theorem createTempPathSync_wraps_failures
    (tmpdir options : JSVal) (env : Env) (uuid : String) (r : SyncCall)
    (h : syncPrep tmpdir options env uuid = Except.ok r) (fsys : FS) :
    createTempPathSync tmpdir options env uuid fsys = syncFsPhase r fsys ∧
    (∀ e, fsys.mkdirRecursive (dirname r.path) = some e →
      syncFsPhase r fsys = Except.error (JSError.wrapped
        ("temppath: Failed to create temporary "
          ++ (if r.asFile then "file." else "directory.")) e)) ∧
    (fsys.mkdirRecursive (dirname r.path) = none →
      (r.asFile = true → ∀ e, fsys.writeFile (r.path ++ r.extension) = some e →
        syncFsPhase r fsys = Except.error (JSError.wrapped
          "temppath: Failed to create temporary file." e)) ∧
      (r.asFile = true → fsys.writeFile (r.path ++ r.extension) = none →
        syncFsPhase r fsys = Except.ok (r.path ++ r.extension)) ∧
      (r.asFile = false → ∀ e, fsys.mkdir r.path = some e →
        syncFsPhase r fsys = Except.error (JSError.wrapped
          "temppath: Failed to create temporary directory." e)) ∧
      (r.asFile = false → fsys.mkdir r.path = none →
        syncFsPhase r fsys = Except.ok r.path)) := by
  refine ⟨by simp [createTempPathSync, h], ?_, ?_⟩
  · intro e hm
    simp [syncFsPhase, hm]
  · intro hm
    refine ⟨?_, ?_, ?_, ?_⟩
    · intro haf e hw
      simp [syncFsPhase, hm, haf, hw]
    · intro haf hw
      simp [syncFsPhase, hm, haf, hw]
    · intro haf e hk
      simp [syncFsPhase, hm, haf, hk]
    · intro haf hk
      simp [syncFsPhase, hm, haf, hk]

/-- Witness for C2: a file-creating call with extension `txt`, on an
all-succeeding filesystem. -/
theorem createTempPathSync_wraps_failures_witness :
    createTempPathSync
      (JSVal.obj (Options.mk (Prim.bool true) (Prim.str "txt") Prim.undef))
      JSVal.undef sampleEnv sampleUuid fsAllOk
      = syncFsPhase
          (SyncCall.mk ("/sys/" ++ sampleUuid) ".txt" true) fsAllOk :=
  (createTempPathSync_wraps_failures
    (JSVal.obj (Options.mk (Prim.bool true) (Prim.str "txt") Prim.undef))
    JSVal.undef sampleEnv sampleUuid
    (SyncCall.mk ("/sys/" ++ sampleUuid) ".txt" true) (by decide) fsAllOk).1

/-- Counterexample to claim C4: an array passed as `options` is present
(truthy) and is not a structured record, yet neither creation entry point
raises an `InvalidArgument` error — the array passes the `typeof` check of
both forms and the calls proceed and succeed. -/
theorem options_array_counterexample :
    jsTruthy JSVal.arr = true ∧
    isStructuredRecord JSVal.arr = false ∧
    createTempPath (JSVal.str "/r") JSVal.arr (JSVal.func 0) sampleEnv
      sampleUuid fsAllOk
      = Except.ok [CbInvocation.mk (JSVal.func 0)
          (CbArg.success ("/r/" ++ sampleUuid))] ∧
    createTempPathSync (JSVal.str "/r") JSVal.arr sampleEnv sampleUuid fsAllOk
      = Except.ok ("/r/" ++ sampleUuid) := by
  refine ⟨rfl, rfl, ?_, ?_⟩ <;> decide

/-- Claim C4 (amended): for both creation entry points, each of these
argument-shape violations — determined after disambiguation — raises a
`TypeError` synchronously, independently of the filesystem oracle (hence
before any filesystem operation and never through the callback): a missing
or non-callable callback (asynchronous form); an options value that is
truthy but not of object runtime type (asynchronous form) or of any
non-object runtime type (synchronous form); an `options.ext` that is truthy
but not a string; an `options.maxLen` that is truthy but not a number.
Falsy violating values are not rejected: a falsy non-object options value
such as `false` skips the asynchronous object check and the call proceeds,
a falsy non-string `ext` skips the extension check and the extension
defaults to `.tmp`, and a falsy non-numeric `maxLen` skips the length
check — `maxLen: null` then fails inside the resolver with a `RangeError`,
not a `TypeError` (final five conjuncts, at concrete inputs).  An array,
though not a structured record, passes the object checks of both forms. -/
theorem argument_shape_violations_raise_typeError
    (tmpdir options callback t o c t2 o2 : JSVal) (env : Env) (uuid : String)
    (hres : resolveArgsAsync tmpdir options callback = (t, o, c))
    (hres2 : resolveArgsSync tmpdir options = (t2, o2)) :
    ((jsTruthy c = false ∨ jsTypeof c ≠ "function") →
      ∀ fsys, ∃ m, createTempPath tmpdir options callback env uuid fsys
        = Except.error (JSError.typeError m)) ∧
    (jsTruthy o = true → jsTypeof o ≠ "object" →
      ∀ fsys, ∃ m, createTempPath tmpdir options callback env uuid fsys
        = Except.error (JSError.typeError m)) ∧
    (∀ os, o = JSVal.obj os → primTruthy os.ext = true →
      primTypeof os.ext ≠ "string" →
      ∀ fsys, ∃ m, createTempPath tmpdir options callback env uuid fsys
        = Except.error (JSError.typeError m)) ∧
    (∀ os, o = JSVal.obj os → primTruthy os.maxLen = true →
      primTypeof os.maxLen ≠ "number" →
      ∀ fsys, ∃ m, createTempPath tmpdir options callback env uuid fsys
        = Except.error (JSError.typeError m)) ∧
    (jsTypeof o2 ≠ "object" →
      ∀ fsys, ∃ m, createTempPathSync tmpdir options env uuid fsys
        = Except.error (JSError.typeError m)) ∧
    (∀ os, o2 = JSVal.obj os → primTruthy os.ext = true →
      primTypeof os.ext ≠ "string" →
      ∀ fsys, ∃ m, createTempPathSync tmpdir options env uuid fsys
        = Except.error (JSError.typeError m)) ∧
    (∀ os, o2 = JSVal.obj os → primTruthy os.maxLen = true →
      primTypeof os.maxLen ≠ "number" →
      ∀ fsys, ∃ m, createTempPathSync tmpdir options env uuid fsys
        = Except.error (JSError.typeError m)) ∧
    (∀ e : Env, ∀ u : String,
      asyncPrep (JSVal.str "/r") (JSVal.bool false) (JSVal.func 0) e u
        = Except.ok (ResolvedCall.mk (JSVal.func 0)
            (pathJoin "/r" (stripHyphens u)) ".tmp" false)) ∧
    (∀ e : Env, ∀ u : String,
      asyncPrep (JSVal.str "/r")
          (JSVal.obj (Options.mk Prim.undef (Prim.bool false) Prim.undef))
          (JSVal.func 0) e u
        = Except.ok (ResolvedCall.mk (JSVal.func 0)
            (pathJoin "/r" (stripHyphens u)) ".tmp" false)) ∧
    (∀ e : Env, ∀ u : String, ∀ fs2 : FS,
      createTempPath (JSVal.str "/r")
          (JSVal.obj (Options.mk Prim.undef Prim.undef Prim.null))
          (JSVal.func 0) e u fs2
        = Except.error
            (JSError.rangeError "Maximum characters must be greater than zero")) ∧
    (∀ e : Env, ∀ u : String,
      syncPrep (JSVal.str "/r")
          (JSVal.obj (Options.mk Prim.undef (Prim.bool false) Prim.undef)) e u
        = Except.ok (SyncCall.mk (pathJoin "/r" (stripHyphens u)) ".tmp" false)) ∧
    (∀ e : Env, ∀ u : String, ∀ fs2 : FS,
      createTempPathSync (JSVal.str "/r")
          (JSVal.obj (Options.mk Prim.undef Prim.undef Prim.null)) e u fs2
        = Except.error
            (JSError.rangeError "Maximum characters must be greater than zero")) := by
  refine ⟨?_, ?_, ?_, ?_, ?_, ?_, ?_, ?_, ?_, ?_, ?_, ?_⟩
  · intro hcb fsys
    exact ⟨"The \"callback\" argument must be a function. Received "
        ++ jsTypeof c,
      by simp [createTempPath, asyncPrep, hres, hcb]⟩
  · intro ho1 ho2 fsys
    by_cases hcb : jsTruthy c = false ∨ jsTypeof c ≠ "function"
    · exact ⟨"The \"callback\" argument must be a function. Received "
          ++ jsTypeof c,
        by simp [createTempPath, asyncPrep, hres, hcb]⟩
    · exact ⟨"The \"options\" argument must be an object. Received "
          ++ jsTypeof o,
        by simp [createTempPath, asyncPrep, hres, hcb, ho1, ho2]⟩
  · rintro os rfl he1 he2 fsys
    by_cases hcb : jsTruthy c = false ∨ jsTypeof c ≠ "function"
    · exact ⟨"The \"callback\" argument must be a function. Received "
          ++ jsTypeof c,
        by simp [createTempPath, asyncPrep, hres, hcb]⟩
    · have h5 : jsTruthy (JSVal.obj os) = true := rfl
      have h6 : jsTypeof (JSVal.obj os) = "object" := rfl
      have h7 : getProp (JSVal.obj os) Options.ext = Except.ok os.ext := rfl
      exact ⟨"Expected a string extension, got " ++ primTypeof os.ext,
        by simp [createTempPath, asyncPrep, hres, hcb, h5, h6, h7, he1, he2]⟩
  · rintro os rfl hm1 hm2 fsys
    by_cases hcb : jsTruthy c = false ∨ jsTypeof c ≠ "function"
    · exact ⟨"The \"callback\" argument must be a function. Received "
          ++ jsTypeof c,
        by simp [createTempPath, asyncPrep, hres, hcb]⟩
    · have h5 : jsTruthy (JSVal.obj os) = true := rfl
      have h6 : jsTypeof (JSVal.obj os) = "object" := rfl
      have h7 : getProp (JSVal.obj os) Options.ext = Except.ok os.ext := rfl
      have h8 : getProp (JSVal.obj os) Options.maxLen = Except.ok os.maxLen := rfl
      by_cases hex : primTruthy os.ext = true ∧ primTypeof os.ext ≠ "string"
      · exact ⟨"Expected a string extension, got " ++ primTypeof os.ext,
          by simp [createTempPath, asyncPrep, hres, hcb, h5, h6, h7,
            hex.1, hex.2]⟩
      · exact ⟨"Expected a number for maxLen, got " ++ primTypeof os.maxLen,
          by simp [createTempPath, asyncPrep, hres, hcb, h5, h6, h7, h8,
            hex, hm1, hm2]⟩
  · intro ho fsys
    exact ⟨"The \"options\" argument must be an object. Received "
        ++ jsTypeof o2,
      by simp [createTempPathSync, syncPrep, hres2, ho]⟩
  · rintro os rfl he1 he2 fsys
    have h6 : jsTypeof (JSVal.obj os) = "object" := rfl
    have h7 : getProp (JSVal.obj os) Options.ext = Except.ok os.ext := rfl
    exact ⟨"Expected a string extension, got " ++ primTypeof os.ext,
      by simp [createTempPathSync, syncPrep, hres2, h6, h7, he1, he2]⟩
  · rintro os rfl hm1 hm2 fsys
    have h6 : jsTypeof (JSVal.obj os) = "object" := rfl
    have h7 : getProp (JSVal.obj os) Options.ext = Except.ok os.ext := rfl
    have h8 : getProp (JSVal.obj os) Options.maxLen = Except.ok os.maxLen := rfl
    by_cases hex : primTruthy os.ext = true ∧ primTypeof os.ext ≠ "string"
    · exact ⟨"Expected a string extension, got " ++ primTypeof os.ext,
        by simp [createTempPathSync, syncPrep, hres2, h6, h7, hex.1, hex.2]⟩
    · exact ⟨"Expected a number for maxLen, got " ++ primTypeof os.maxLen,
        by simp [createTempPathSync, syncPrep, hres2, h6, h7, h8,
          hex, hm1, hm2]⟩
  · intro e u
    rfl
  · intro e u
    rfl
  · intro e u fs2
    rfl
  · intro e u
    rfl
  · intro e u fs2
    rfl

/-- Witness for the amended C4: a numeric options value is rejected with a
`TypeError` by both entry points. -/
theorem argument_shape_violations_witness :
    (∃ m, createTempPath (JSVal.str "/r") (JSVal.num 5) (JSVal.func 0)
        sampleEnv sampleUuid fsAllOk = Except.error (JSError.typeError m)) ∧
    (∃ m, createTempPathSync (JSVal.str "/r") (JSVal.num 5)
        sampleEnv sampleUuid fsAllOk = Except.error (JSError.typeError m)) :=
  ⟨(argument_shape_violations_raise_typeError (JSVal.str "/r") (JSVal.num 5)
      (JSVal.func 0) (JSVal.str "/r") (JSVal.num 5) (JSVal.func 0)
      (JSVal.str "/r") (JSVal.num 5) sampleEnv sampleUuid rfl rfl).2.1
      (by decide) (by decide) fsAllOk,
   (argument_shape_violations_raise_typeError (JSVal.str "/r") (JSVal.num 5)
      (JSVal.func 0) (JSVal.str "/r") (JSVal.num 5) (JSVal.func 0)
      (JSVal.str "/r") (JSVal.num 5) sampleEnv sampleUuid rfl rfl).2.2.2.2.1
      (by decide) fsAllOk⟩
